import Mathlib

/-!
# libint2 : `Uncontract_Integral` and `DecontractedIntegralSet`

A shallow embedding of `src/bin/libint/uncontract.h` and of the traits of
`src/bin/libint/traits.h`.

* A `std::shared_ptr<I>` to a graph vertex is represented by the vertex itself: integral
  sets are singletons per content, so the content identifies the vertex.
* The template parameter `I` of `Uncontract_Integral<I>` is the Lean type
  `GenIntegralSet F D A`; `TargetType` and `ChildType` are the typedefs of the class.
* Code that the header only includes (`bfset.h`, `integral.h`, `context.h`, `dims.h`,
  `entity.h`, `dgvertex.h`, `dgarc.h`) is either modelled from the specification, and
  marked so, or taken as a parameter (`Externals`, `CodeContext`).
* `unsigned int` is `Nat` with an explicit `% 2 ^ 32` where a value is stored or
  accumulated.
-/

namespace libint2

/-! ## Collaborators of the constructor -/

/-- Modelled from the spec: `Contractable` of `bfset.h` is not part of the sources at hand.
A contractable component (a basis function set, or an operator descriptor) carries a
contraction flag next to the rest of its content. -/
structure Contractable (X : Type) where
  contracted_ : Bool
  rest : X
deriving DecidableEq

/-- Modelled from the spec: `contracted()` reads the contraction flag. -/
def Contractable.contracted {X : Type} (c : Contractable X) : Bool :=
  c.contracted_

/-- Modelled from the spec: `uncontract()` clears the contraction flag and leaves the
rest of the component alone. -/
def Contractable.uncontract {X : Type} (c : Contractable X) : Contractable X :=
  { c with contracted_ := false }

/-- Modelled from the spec: `I::BraType` and `I::KetType` are not part of the sources at
hand. A bra or a ket is a sequence of particles, each holding a sequence of members. -/
abbrev BraKet (F : Type) := List (List (Contractable F))

/-- The method `num_part()` of a bra or ket. -/
def BraKet.num_part {F : Type} (b : BraKet F) : Nat :=
  b.length

/-- The method `num_members(p)` of a bra or ket. -/
def BraKet.num_members {F : Type} (b : BraKet F) (p : Nat) : Nat :=
  (b.getD p []).length

/-- The method `member(p, f)` of a bra or ket, read; `none` outside the bra or ket. -/
def BraKet.member {F : Type} (b : BraKet F) (p f : Nat) : Option (Contractable F) :=
  (b.get? p).bind (fun row => row.get? f)

/-- Assignment through the reference that `member(p, f)` returns. -/
def BraKet.set_member {F : Type} (b : BraKet F) (p f : Nat) (x : Contractable F) :
    BraKet F :=
  match b.get? p with
  | some row => b.set p (row.set f x)
  | none => b

/-- Modelled from the spec: `I::OperType` is not part of the sources at hand. An operator
holds a contractable descriptor, reached through `descr()`. -/
structure GenOper (D : Type) where
  descr_ : Contractable D
deriving DecidableEq

/-- Modelled from the spec: the integral set class `I` is not part of the sources at
hand. Its defining components are the bra, the ket, the auxiliary index and the
operator. -/
structure GenIntegralSet (F D A : Type) where
  bra_ : BraKet F
  ket_ : BraKet F
  aux_ : A
  oper_ : GenOper D
deriving DecidableEq

/-- Modelled from the spec: `I::Instance(bra, ket, aux, oper)` is not part of the sources
at hand. It returns the vertex of the same class with the given components. -/
def GenIntegralSet.Instance {F D A : Type} (bra ket : BraKet F) (aux : A)
    (oper : GenOper D) : GenIntegralSet F D A :=
  { bra_ := bra, ket_ := ket, aux_ := aux, oper_ := oper }

/-! ## The class `Uncontract_Integral<I>` -/

/-- The typedef `TargetType` of `Uncontract_Integral<I>`. -/
abbrev TargetType (I : Type) : Type := I

/-- The typedef `ChildType` of `Uncontract_Integral<I>`. -/
abbrev ChildType (I : Type) : Type := TargetType I

/-- The data members of `Uncontract_Integral<I>`, with the counter `nflops_` it inherits
from `RecurrenceRelation`. -/
structure Uncontract_Integral (I : Type) where
  target_ : TargetType I
  children_ : List (ChildType I)
  nflops_ : Nat
deriving DecidableEq

/-- The body of the inner loops of the constructor, at member `(p, f)`:
`target_is_contracted |= b.member(p, f).contracted(); b.member(p, f).uncontract();`. -/
def uncontract_member {F : Type} (p f : Nat) (st : Bool × BraKet F) : Bool × BraKet F :=
  match st.2.member p f with
  | some m => (st.1 || m.contracted, st.2.set_member p f m.uncontract)
  | none => st

/-- The inner loop of the constructor:
`const unsigned int nf = b.num_members(p); for (unsigned int f = 0; f < nf; ++f) ...`. -/
def uncontract_particle {F : Type} (st : Bool × BraKet F) (p : Nat) : Bool × BraKet F :=
  (List.range (st.2.num_members p)).foldl (fun s f => uncontract_member p f s) st

/-- The outer loop of the constructor:
`const unsigned int np = b.num_part(); for (unsigned int p = 0; p < np; ++p) ...`. -/
def uncontract_braket {F : Type} (st : Bool × BraKet F) : Bool × BraKet F :=
  (List.range st.2.num_part).foldl uncontract_particle st

/-- The constructor `Uncontract_Integral<I>::Uncontract_Integral(Tint)`. The counter
`nflops_` belongs to the base class `RecurrenceRelation`, outside the header, and is taken
to start at zero. -/
def Uncontract_Integral.ctor {F D A : Type} (Tint : GenIntegralSet F D A) :
    Uncontract_Integral (GenIntegralSet F D A) :=
  let target_ := Tint
  let bra_unc := target_.bra_
  let ket_unc := target_.ket_
  let target_is_contracted := false
  let afterBra := uncontract_braket (target_is_contracted, bra_unc)
  let afterKet := uncontract_braket (afterBra.1, ket_unc)
  let oper_unc := target_.oper_
  let oper_contracted := oper_unc.descr_.contracted
  let target_is_contracted := afterKet.1 || oper_contracted
  let oper_unc : GenOper D := { descr_ := oper_unc.descr_.uncontract }
  { target_ := target_
    children_ :=
      if target_is_contracted then
        [GenIntegralSet.Instance afterBra.2 afterKet.2 target_.aux_ oper_unc]
      else []
    nflops_ := 0 }

/-- The method `num_children()`: `children_.size()` returned as `unsigned int`. -/
def Uncontract_Integral.num_children {I : Type} (self : Uncontract_Integral I) : Nat :=
  self.children_.length % 2 ^ 32

/-- The method `target()`. -/
def Uncontract_Integral.target {I : Type} (self : Uncontract_Integral I) : TargetType I :=
  self.target_

/-- How a member function can fail. -/
inductive Failure where
  | out_of_range
  | null_pointer
deriving DecidableEq

/-- The method `child(i)`: `children_.at(i)`, which throws `std::out_of_range` outside the
vector. -/
def Uncontract_Integral.child {I : Type} (self : Uncontract_Integral I) (i : Nat) :
    Except Failure (ChildType I) :=
  match self.children_.get? i with
  | some c => Except.ok c
  | none => Except.error Failure.out_of_range

/-- The method `rr_target()`: the target, seen as a vertex. -/
def Uncontract_Integral.rr_target {I : Type} (self : Uncontract_Integral I) : I :=
  self.target

/-- The method `rr_child(i)`: `child(i)`, seen as a vertex. -/
def Uncontract_Integral.rr_child {I : Type} (self : Uncontract_Integral I) (i : Nat) :
    Except Failure I :=
  self.child i

/-- The method `is_simple()`. -/
def Uncontract_Integral.is_simple {I : Type} (_self : Uncontract_Integral I) : Bool :=
  false

/-- The method `generate_label()`. -/
def Uncontract_Integral.generate_label {I : Type} (_self : Uncontract_Integral I) :
    String :=
  "Generic Contract"

/-! ## Collaborators of `spfunction_call` -/

/-- Modelled from the spec: the entity classes of `entity.h` are not part of the sources
at hand. The vector length of a dimensions descriptor is a `CTimeEntity<int>`, whose
value is known when the code is generated, or an `RTimeEntity<EntityTypes::Int>`, known
by its identifier only; any other entity is `other`. -/
inductive Entity where
  | CTimeEntity (value : Int)
  | RTimeEntity (id : String)
  | other
deriving DecidableEq

/-- The cast `std::dynamic_pointer_cast<RTimeEntity<EntityTypes::Int>, Entity>`; `none` is
the null pointer. -/
def Entity.cast_RTimeEntity : Entity → Option String
  | Entity.RTimeEntity id => some id
  | _ => none

/-- The cast `std::dynamic_pointer_cast<CTimeEntity<int>, Entity>`; `none` is the null
pointer. -/
def Entity.cast_CTimeEntity : Entity → Option Int
  | Entity.CTimeEntity value => some value
  | _ => none

/-- Modelled from the spec: `ImplicitDimensions` of `dims.h` is not part of the sources at
hand. The descriptor says whether the vector length is known when the code is generated,
and gives the vector length entity. -/
structure ImplicitDimensions where
  vecdim_is_static : Bool
  vecdim : Entity
deriving DecidableEq

/-- The accessors of `CodeContext` that `spfunction_call` uses, taken as parameters:
`value_to_pointer`, `end_of_stat` and `cparams()->vectorize_by_line()`. -/
structure CodeContext where
  value_to_pointer : String → String
  end_of_stat : String
  vectorize_by_line : Bool

/-- What `spfunction_call` takes from code outside the header, as parameters: the
compile-time constant `TrivialBFSet<BFSet>::result`, the methods `size()` and `symbol()`
of the vertices, and the identifier `id()` of the two entity products, `vecdim * bdim`
for a compile-time and for a run-time vector length. -/
structure Externals (I : Type) where
  TrivialBFSet_result : Bool
  size : I → Nat
  symbol : I → String
  ctime_product_id : Int → Int → String
  rtime_product_id : String → Int → String

/-- The conversion of an `unsigned int` to `int`, as in `CTimeEntity<int>(s)` for the
`unsigned int s`: the values from `2 ^ 31` on wrap to negative numbers. -/
def int_of_unsigned (s : Nat) : Int :=
  if s % 2 ^ 32 < 2 ^ 31 then Int.ofNat (s % 2 ^ 32) else Int.ofNat (s % 2 ^ 32) - 2 ^ 32

/-- The first part of `spfunction_call`: the flag `vectorize` and the identifier of
`bvecdim`. Using the null pointer that a failed cast returns is a failure. -/
def vectorize_and_bvecdim {I : Type} (ext : Externals I) (dims : ImplicitDimensions)
    (s : Nat) : Except Failure (Bool × String) :=
  let bdim : Int := int_of_unsigned s
  if !dims.vecdim_is_static then
    match dims.vecdim.cast_RTimeEntity with
    | some vecdim => Except.ok (true, ext.rtime_product_id vecdim bdim)
    | none => Except.error Failure.null_pointer
  else
    match dims.vecdim.cast_CTimeEntity with
    | some vecdim =>
      Except.ok (if vecdim = 1 then false else true, ext.ctime_product_id vecdim bdim)
    | none => Except.error Failure.null_pointer

/-- The text of the first branch of `spfunction_call`, the increment over `bvecdim`
elements in one call. -/
def batched_text (context : CodeContext) (target child bvecdim_id : String) : String :=
  "_libint2_static_api_inc1_short_(" ++ context.value_to_pointer target ++ "," ++
    context.value_to_pointer child ++ "," ++ bvecdim_id ++ ")" ++ context.end_of_stat ++
    "\n"

/-- The text of the second branch of `spfunction_call`, the blockwise increment at
offset `vi`. -/
def blockwise_text (context : CodeContext) (target child : String) : String :=
  "_libint2_static_api_inc1_short_(" ++ context.value_to_pointer target ++ "+vi," ++
    context.value_to_pointer child ++ ",1)" ++ context.end_of_stat ++ "\n"

/-- The condition of the `if` of `spfunction_call` that selects the first branch. -/
def batched_branch {I : Type} (ext : Externals I) (context : CodeContext)
    (vectorize : Bool) : Bool :=
  !vectorize || !ext.TrivialBFSet_result || context.vectorize_by_line

/-- The method `spfunction_call(context, dims)`. It returns the text and the relation
with its counter `nflops_` updated through the `const_cast`. -/
def Uncontract_Integral.spfunction_call {I : Type} (ext : Externals I)
    (self : Uncontract_Integral I) (context : CodeContext) (dims : ImplicitDimensions) :
    Except Failure (String × Uncontract_Integral I) :=
  let s := ext.size self.target_ % 2 ^ 32
  match vectorize_and_bvecdim ext dims s with
  | Except.error e => Except.error e
  | Except.ok (vectorize, bvecdim_id) =>
    match self.rr_child 0 with
    | Except.error e => Except.error e
    | Except.ok child0 =>
      let os :=
        if batched_branch ext context vectorize then
          batched_text context (ext.symbol self.rr_target) (ext.symbol child0) bvecdim_id
        else
          blockwise_text context (ext.symbol self.rr_target) (ext.symbol child0)
      Except.ok (os,
        { self with nflops_ := (self.nflops_ + ext.size self.target_ % 2 ^ 32) % 2 ^ 32 })

/-- What a piece of a member function leaves: its value, or its failure, and the object
as it is when the piece ends or throws. -/
abbrev Outcome (S A : Type) : Type := Except Failure A × S

/-- One piece after another: the second piece runs on the object as the first piece left
it; when the first piece throws, the second does not run, and the object stays as the
first piece left it. -/
def Outcome.and_then {S A B : Type} (first : Outcome S A) (second : A → S → Outcome S B) :
    Outcome S B :=
  match first with
  | (Except.ok a, s) => second a s
  | (Except.error e, s) => (Except.error e, s)

/-- Lines 159 to 174 of `spfunction_call`: the size, the casts of the vector length and
the product `bvecdim`. The object is read only. -/
def Uncontract_Integral.spfunction_call_dims {I : Type} (ext : Externals I)
    (dims : ImplicitDimensions) (self : Uncontract_Integral I) :
    Outcome (Uncontract_Integral I) (Bool × String) :=
  (vectorize_and_bvecdim ext dims (ext.size self.target_ % 2 ^ 32), self)

/-- Lines 176 to 189 of `spfunction_call`: the text is written to the local stream, with
`rr_child(0)`, which may throw, read in either branch. The object is read only. -/
def Uncontract_Integral.spfunction_call_text {I : Type} (ext : Externals I)
    (context : CodeContext) (vectorize_bvecdim : Bool × String)
    (self : Uncontract_Integral I) : Outcome (Uncontract_Integral I) String :=
  match self.rr_child 0 with
  | Except.error e => (Except.error e, self)
  | Except.ok child0 =>
    (Except.ok
      (if batched_branch ext context vectorize_bvecdim.1 then
        batched_text context (ext.symbol self.rr_target) (ext.symbol child0)
          vectorize_bvecdim.2
      else blockwise_text context (ext.symbol self.rr_target) (ext.symbol child0)), self)

/-- Lines 190 to 193 of `spfunction_call`: the counter `nflops_` is incremented by
`target_->size()` through the `const_cast`, and the text is returned. -/
def Uncontract_Integral.spfunction_call_count {I : Type} (ext : Externals I) (os : String)
    (self : Uncontract_Integral I) : Outcome (Uncontract_Integral I) String :=
  (Except.ok os,
    { self with nflops_ := (self.nflops_ + ext.size self.target_ % 2 ^ 32) % 2 ^ 32 })

/-- The method `spfunction_call(context, dims)` as the sequence of its three pieces, in
the order of the source, on the object as the state: it gives the text or the failure,
and the object as it is when the method returns or throws. -/
def Uncontract_Integral.spfunction_call_run {I : Type} (ext : Externals I)
    (self : Uncontract_Integral I) (context : CodeContext) (dims : ImplicitDimensions) :
    Outcome (Uncontract_Integral I) String :=
  (self.spfunction_call_dims ext dims).and_then fun vectorize_bvecdim afterDims =>
    (afterDims.spfunction_call_text ext context vectorize_bvecdim).and_then
      fun os afterText => afterText.spfunction_call_count ext os

/-- The relation after a call of `spfunction_call`, returned or thrown: the object that
the run of the three pieces leaves. -/
def Uncontract_Integral.after_spfunction_call {I : Type} (ext : Externals I)
    (self : Uncontract_Integral I) (context : CodeContext) (dims : ImplicitDimensions) :
    Uncontract_Integral I :=
  (self.spfunction_call_run ext context dims).2

/-- A number of successive calls of `spfunction_call` on one relation, each on the
relation the previous call left; the texts are collected in order. -/
def emit_repeatedly {I : Type} (ext : Externals I) (context : CodeContext)
    (dims : ImplicitDimensions) :
    Nat → Uncontract_Integral I → Except Failure (List String × Uncontract_Integral I)
  | 0, self => Except.ok ([], self)
  | n + 1, self =>
    match self.spfunction_call ext context dims with
    | Except.error e => Except.error e
    | Except.ok (text, next) =>
      match emit_repeatedly ext context dims n next with
      | Except.error e => Except.error e
      | Except.ok (texts, last) => Except.ok (text :: texts, last)

/-! ## The predicate `DecontractedIntegralSet` -/

/-- Modelled from the spec: the relation classes of `rr.h` are not part of the sources at
hand. The dynamic class of a relation object is `Uncontract_Integral<I>` for a target
class `I`, named by a number, or another relation class, named by a number. -/
inductive RecurrenceRelation where
  | Uncontract_Integral (I : Nat)
  | other (kind : Nat)
deriving DecidableEq

/-- The cast `std::dynamic_pointer_cast<Uncontract_Integral_base, RecurrenceRelation>`:
it succeeds on the classes that derive from `Uncontract_Integral_base`, which are the
classes `Uncontract_Integral<I>`, and on no other; the null pointer casts to the null
pointer. -/
def cast_Uncontract_Integral_base :
    Option RecurrenceRelation → Option RecurrenceRelation
  | some (RecurrenceRelation.Uncontract_Integral I) =>
    some (RecurrenceRelation.Uncontract_Integral I)
  | _ => none

/-- Modelled from the spec: the arc classes of `dgarc.h` are not part of the sources at
hand. An arc is a `DGArcRR`, which refers to the relation it comes from (`none` is the
null pointer), or an arc of a class that carries no relation. -/
inductive DGArc where
  | DGArcRR (rr : Option RecurrenceRelation)
  | DGArcDirect
deriving DecidableEq

/-- The cast `std::dynamic_pointer_cast<DGArcRR, DGArc>`, returning what `rr()` gives on
the arc; `none` is the null pointer. -/
def DGArc.cast_DGArcRR : DGArc → Option (Option RecurrenceRelation)
  | DGArc.DGArcRR rr => some rr
  | DGArc.DGArcDirect => none

/-- Modelled from the spec: `DGVertex` of `dgvertex.h` is not part of the sources at hand.
Of a vertex the predicate uses the exit arcs, in the order of their insertion. -/
structure DGVertex where
  exit_arcs : List DGArc
deriving DecidableEq

/-- The method `num_exit_arcs()`. -/
def DGVertex.num_exit_arcs (V : DGVertex) : Nat :=
  V.exit_arcs.length

/-- The arc at `first_exit_arc()`; `none` when there is no exit arc. -/
def DGVertex.first_exit_arc (V : DGVertex) : Option DGArc :=
  V.exit_arcs.head?

/-- The call operator of `DecontractedIntegralSet`. -/
def DecontractedIntegralSet (V : DGVertex) : Bool :=
  let outdegree := V.num_exit_arcs
  if outdegree = 0 then false
  else
    match V.first_exit_arc with
    | none => false
    | some arc0 =>
      match arc0.cast_DGArcRR with
      | none => false
      | some rr => (cast_Uncontract_Integral_base rr).isSome

/-! ## The traits of `traits.h` -/

/-- Modelled from the spec: `CartesianAxis` of `bfset.h` is not part of the sources at
hand. The axis that the 1-d variants of the basis function classes are specialized to. -/
inductive CartesianAxis where
  | x
  | y
  | z
deriving DecidableEq

/-- Modelled from the spec: the classes that the traits are instantiated with are not
part of the sources at hand. A class is one of the four that the header names, `CGShell`,
`CGF`, `CGShell1d<Axis>` and `CGF1d<Axis>`, or an operator descriptor class, or any other
class; the last two kinds are told apart by their names. -/
inductive ElementType where
  | CGShell
  | CGF
  | CGShell1d (Axis : CartesianAxis)
  | CGF1d (Axis : CartesianAxis)
  | OperDescr (name : String)
  | other (name : String)
deriving DecidableEq

/-- The members of an instantiation of `StorageTraits<T>`, for a class `T` whose values
are those of `V`: the typedef `StorageType`, the enumerator `StoredAsPtr`, and the static
function `const_ref`. A `std::shared_ptr<T>` is an `Option V`, `none` being the null
pointer, whose dereference fails. -/
structure StorageTraits (V : Type) where
  StorageType : Type
  StoredAsPtr : Bool
  const_ref : StorageType → Except Failure V

/-- The primary template `StorageTraits<T>`: storage by `std::shared_ptr<T>`, and
`const_ref(s)` is `*s`. -/
def StorageTraits.primary (V : Type) : StorageTraits V :=
  { StorageType := Option V
    StoredAsPtr := true
    const_ref := fun s =>
      match s with
      | some v => Except.ok v
      | none => Except.error Failure.null_pointer }

/-- The body shared by the four specializations of `StorageTraits`: storage of the
object itself, and `const_ref(s)` is `s`. -/
def StorageTraits.specialization (V : Type) : StorageTraits V :=
  { StorageType := V
    StoredAsPtr := false
    const_ref := fun s => Except.ok s }

/-- The instantiation `StorageTraits<T>` that the compiler selects. The specializations
for `CGShell`, `CGF`, `CGShell1d<Axis>` and `CGF1d<Axis>` stand under `#if USE_BRAKET_H`;
the macro, of `global_macros.h`, is a parameter. -/
def StorageTraits.instantiate (USE_BRAKET_H : Bool) (T : ElementType) (V : Type) :
    StorageTraits V :=
  match USE_BRAKET_H, T with
  | true, ElementType.CGShell => StorageTraits.specialization V
  | true, ElementType.CGF => StorageTraits.specialization V
  | true, ElementType.CGShell1d _ => StorageTraits.specialization V
  | true, ElementType.CGF1d _ => StorageTraits.specialization V
  | _, _ => StorageTraits.primary V

/-- The members of an instantiation of `TypeTraits<T>`. -/
structure TypeTraits (V : Type) where
  StorageType : Type
  StoredAsPtr : Bool
  const_ref : StorageType → Except Failure V

/-- The template `TypeTraits<T>`: every member is taken from `StorageTraits<T>`. -/
def TypeTraits.instantiate (USE_BRAKET_H : Bool) (T : ElementType) (V : Type) :
    TypeTraits V :=
  { StorageType := (StorageTraits.instantiate USE_BRAKET_H T V).StorageType
    StoredAsPtr := (StorageTraits.instantiate USE_BRAKET_H T V).StoredAsPtr
    const_ref := fun s => (StorageTraits.instantiate USE_BRAKET_H T V).const_ref s }

/-! ## Definitions that follow the words of the specification -/

/-- In the words of the specification: the storage representation of a value under the
policy of its class, the value itself when stored by value, and a shared handle that
points to the value when stored by handle. -/
def storage_of (USE_BRAKET_H : Bool) (T : ElementType) {V : Type} (v : V) :
    (StorageTraits.instantiate USE_BRAKET_H T V).StorageType :=
  match USE_BRAKET_H, T with
  | true, ElementType.CGShell => v
  | true, ElementType.CGF => v
  | true, ElementType.CGShell1d _ => v
  | true, ElementType.CGF1d _ => v
  | true, ElementType.OperDescr _ => some v
  | true, ElementType.other _ => some v
  | false, ElementType.CGShell => some v
  | false, ElementType.CGF => some v
  | false, ElementType.CGShell1d _ => some v
  | false, ElementType.CGF1d _ => some v
  | false, ElementType.OperDescr _ => some v
  | false, ElementType.other _ => some v

/-- In the words of the specification: the closed set of lightweight element types that
are stored by value, the scalar basis function types, the operator descriptor types, and
their axis-specialized 1-d variants. -/
def lightweight_per_spec : ElementType → Bool
  | ElementType.CGShell => true
  | ElementType.CGF => true
  | ElementType.CGShell1d _ => true
  | ElementType.CGF1d _ => true
  | ElementType.OperDescr _ => true
  | ElementType.other _ => false


/-- In the words of the specification: at least one bra member, one ket member, or the
operator descriptor of the target is contracted. -/
def GenIntegralSet.some_contracted {F D A : Type} (T : GenIntegralSet F D A) : Bool :=
  T.bra_.any (fun particle => particle.any Contractable.contracted) ||
    T.ket_.any (fun particle => particle.any Contractable.contracted) ||
    T.oper_.descr_.contracted

/-- In the words of the specification: the uncontracted projection of an integral set,
its bra, ket and operator with every contraction flag cleared, and the same auxiliary
index. -/
def GenIntegralSet.uncontracted_projection {F D A : Type} (T : GenIntegralSet F D A) :
    GenIntegralSet F D A :=
  { bra_ := T.bra_.map (fun particle => particle.map Contractable.uncontract)
    ket_ := T.ket_.map (fun particle => particle.map Contractable.uncontract)
    aux_ := T.aux_
    oper_ := { descr_ := T.oper_.descr_.uncontract } }

/-- In the words of the specification: a dimensions descriptor exposes whether the vector
width is known at generation time and, if so, its value, else a handle to a
runtime-resolved width. -/
def ImplicitDimensions.well_formed (dims : ImplicitDimensions) : Bool :=
  match dims.vecdim_is_static, dims.vecdim with
  | true, Entity.CTimeEntity _ => true
  | false, Entity.RTimeEntity _ => true
  | _, _ => false

/-- In the words of the specification: the vector width is fixed at generation time and
equals 1. -/
def ImplicitDimensions.fixed_width_one (dims : ImplicitDimensions) : Bool :=
  dims.vecdim_is_static && decide (dims.vecdim = Entity.CTimeEntity 1)

/-- In the words of the specification: the predicate by type identity, true when the
first exit arc carries a relation whose class is exactly `Uncontract_Integral<I>` for the
target class `I` that is checked for. -/
def DecontractedIntegralSet_by_type_identity (I : Nat) (V : DGVertex) : Bool :=
  match V.exit_arcs with
  | DGArc.DGArcRR (some (RecurrenceRelation.Uncontract_Integral J)) :: _ => decide (J = I)
  | _ => false

/-! ## Sample inputs -/

/-- A target whose bra, ket and operator are all uncontracted. -/
def sample_uncontracted : GenIntegralSet Nat Nat Nat :=
  { bra_ := [[⟨false, 1⟩], [⟨false, 2⟩]]
    ket_ := [[⟨false, 3⟩], [⟨false, 4⟩]]
    aux_ := 0
    oper_ := ⟨⟨false, 9⟩⟩ }

/-- A target in which only the operator descriptor is contracted. -/
def sample_oper_contracted : GenIntegralSet Nat Nat Nat :=
  { bra_ := [[⟨false, 1⟩], [⟨false, 2⟩]]
    ket_ := [[⟨false, 3⟩], [⟨false, 4⟩]]
    aux_ := 5
    oper_ := ⟨⟨true, 9⟩⟩ }

/-- A target whose bra is contracted, and whose ket and operator are not. -/
def sample_bra_contracted : GenIntegralSet Nat Nat Nat :=
  { bra_ := [[⟨true, 1⟩], [⟨true, 2⟩]]
    ket_ := [[⟨false, 3⟩], [⟨false, 4⟩]]
    aux_ := 0
    oper_ := ⟨⟨false, 9⟩⟩ }

/-- Vertices of size 6, named `tgt` when something in them is contracted and `src`
otherwise, over basis function sets that are not trivial; the identifier of a product of
entities is written out. -/
def sample_externals : Externals (GenIntegralSet Nat Nat Nat) :=
  { TrivialBFSet_result := false
    size := fun _ => 6
    symbol := fun T => if T.some_contracted then "tgt" else "src"
    ctime_product_id := fun v s => toString (v * s)
    rtime_product_id := fun id s => id ++ "*" ++ toString s }

/-- Single integrals, vertices of size 1 over basis function sets that are trivial, named
as in `sample_externals`. -/
def sample_externals_single : Externals (GenIntegralSet Nat Nat Nat) :=
  { TrivialBFSet_result := true
    size := fun _ => 1
    symbol := fun T => if T.some_contracted then "tgt" else "src"
    ctime_product_id := fun v s => toString (v * s)
    rtime_product_id := fun id s => id ++ "*" ++ toString s }

/-- A context that vectorizes by blocks, writes a symbol as it is and ends a statement
with a semicolon. -/
def sample_context : CodeContext :=
  { value_to_pointer := fun symbol => symbol
    end_of_stat := ";"
    vectorize_by_line := false }

/-- A dimensions descriptor whose vector length is known at run time only. -/
def sample_dims_runtime : ImplicitDimensions :=
  { vecdim_is_static := false
    vecdim := Entity.RTimeEntity "veclen" }

/-- A dimensions descriptor whose vector length is fixed to 1. -/
def sample_dims_one : ImplicitDimensions :=
  { vecdim_is_static := true
    vecdim := Entity.CTimeEntity 1 }

/-- A vertex whose only exit arc carries an `Uncontract_Integral` over the target class
number 1. -/
def sample_vertex : DGVertex :=
  { exit_arcs := [DGArc.DGArcRR (some (RecurrenceRelation.Uncontract_Integral 1))] }

/-- A vertex whose first exit arc carries a relation of another class, and whose second
exit arc carries an `Uncontract_Integral`. -/
def sample_vertex_other_first : DGVertex :=
  { exit_arcs :=
      [DGArc.DGArcRR (some (RecurrenceRelation.other 7)),
        DGArc.DGArcRR (some (RecurrenceRelation.Uncontract_Integral 1))] }

/-- The vertex `sample_vertex_other_first` with its two exit arcs swapped. -/
def sample_vertex_uncontract_first : DGVertex :=
  { exit_arcs :=
      [DGArc.DGArcRR (some (RecurrenceRelation.Uncontract_Integral 1)),
        DGArc.DGArcRR (some (RecurrenceRelation.other 7))] }

/-- An operator descriptor class. -/
def sample_oper_descr : ElementType :=
  ElementType.OperDescr "TwoPRep_Descr"

end libint2

namespace libint2

/-! ## The loops of the constructor -/

theorem get?_take_map_drop {α : Type} (g : α → α) :
    ∀ (l : List α) (n : Nat), ((l.take n).map g ++ l.drop n).get? n = l.get? n
  | [], n => by simp
  | _ :: _, 0 => by simp
  | _ :: l, n + 1 => by simpa using get?_take_map_drop g l n

theorem set_take_map_drop {α : Type} (g : α → α) :
    ∀ (l : List α) (n : Nat) (x : α), l.get? n = some x →
      ((l.take n).map g ++ l.drop n).set n (g x) = (l.take (n + 1)).map g ++ l.drop (n + 1)
  | [], n, x, h => by simp at h
  | a :: l, 0, x, h => by
    simp at h
    simp [h]
  | a :: l, n + 1, x, h => by
    simp at h
    simpa using set_take_map_drop g l n x (by simpa using h)

theorem any_take_succ {α : Type} (q : α → Bool) :
    ∀ (l : List α) (n : Nat) (x : α), l.get? n = some x →
      (l.take (n + 1)).any q = ((l.take n).any q || q x)
  | [], n, x, h => by simp at h
  | a :: l, 0, x, h => by
    simp at h
    simp [h]
  | a :: l, n + 1, x, h => by
    simp at h
    have ih := any_take_succ q l n x (by simpa using h)
    simp only [List.take_succ_cons, List.any_cons, ih, Bool.or_assoc]

theorem set_get?_self {α : Type} :
    ∀ (l : List α) (n : Nat) (x : α), l.get? n = some x → l.set n x = l
  | [], n, x, h => by simp at h
  | a :: l, 0, x, h => by
    simp at h
    simp [h]
  | a :: l, n + 1, x, h => by
    simp at h
    simpa using set_get?_self l n x (by simpa using h)

theorem get?_set_same {α : Type} :
    ∀ (l : List α) (n : Nat) (x y : α), l.get? n = some x → (l.set n y).get? n = some y
  | [], n, x, y, h => by simp at h
  | a :: l, 0, x, y, h => by simp
  | a :: l, n + 1, x, y, h => by
    simp at h
    simpa using get?_set_same l n x y (by simpa using h)

theorem uncontract_member_at {F : Type} (t : Bool) (b : BraKet F) (p n : Nat)
    (row row1 : List (Contractable F)) (m : Contractable F)
    (hb : b.get? p = some row) (hm : row1.get? n = some m) :
    uncontract_member p n (t, b.set p row1) =
      (t || m.contracted, b.set p (row1.set n m.uncontract)) := by
  have h1 : (b.set p row1).get? p = some row1 := get?_set_same b p row row1 hb
  simp only [uncontract_member, BraKet.member, BraKet.set_member, h1, Option.some_bind, hm,
    List.set_set]

theorem uncontract_particle_upto {F : Type} (t : Bool) (b : BraKet F) (p : Nat)
    (row : List (Contractable F)) (hb : b.get? p = some row) :
    ∀ n, n ≤ row.length →
      (List.range n).foldl (fun s f => uncontract_member p f s) (t, b) =
        (t || (row.take n).any Contractable.contracted,
          b.set p ((row.take n).map Contractable.uncontract ++ row.drop n))
  | 0, _ => by simp [set_get?_self b p row hb]
  | n + 1, h => by
    have hn : n < row.length := h
    have hx : row.get? n = some (row.get ⟨n, hn⟩) := List.get?_eq_get hn
    have hx1 : ((row.take n).map Contractable.uncontract ++ row.drop n).get? n =
        some (row.get ⟨n, hn⟩) := by
      rw [get?_take_map_drop]
      exact hx
    rw [List.range_succ, List.foldl_append, uncontract_particle_upto t b p row hb n (Nat.le_of_lt hn)]
    simp only [List.foldl_cons, List.foldl_nil]
    rw [uncontract_member_at _ b p n row _ _ hb hx1, set_take_map_drop _ row n _ hx,
      any_take_succ _ row n _ hx, Bool.or_assoc]

theorem uncontract_particle_eq {F : Type} (t : Bool) (b : BraKet F) (p : Nat)
    (row : List (Contractable F)) (hb : b.get? p = some row) :
    uncontract_particle (t, b) p =
      (t || row.any Contractable.contracted, b.set p (row.map Contractable.uncontract)) := by
  have hlen : BraKet.num_members b p = row.length := by
    simp only [BraKet.num_members, List.getD_eq_getElem?_getD]
    rw [List.get?_eq_getElem?] at hb
    simp [hb]
  have h := uncontract_particle_upto t b p row hb row.length (Nat.le_refl _)
  simp only [List.take_length, List.drop_length, List.append_nil] at h
  simp only [uncontract_particle, hlen]
  exact h

theorem uncontract_braket_upto {F : Type} (t : Bool) (b : BraKet F) :
    ∀ n, n ≤ b.length →
      (List.range n).foldl uncontract_particle (t, b) =
        (t || (b.take n).any (fun particle => particle.any Contractable.contracted),
          (b.take n).map (fun particle => particle.map Contractable.uncontract) ++ b.drop n)
  | 0, _ => by simp
  | n + 1, h => by
    have hn : n < b.length := h
    have hx : b.get? n = some (b.get ⟨n, hn⟩) := List.get?_eq_get hn
    have hx1 : ((b.take n).map (fun particle => particle.map Contractable.uncontract) ++
        b.drop n).get? n = some (b.get ⟨n, hn⟩) := by
      rw [get?_take_map_drop]
      exact hx
    rw [List.range_succ, List.foldl_append, uncontract_braket_upto t b n (Nat.le_of_lt hn)]
    simp only [List.foldl_cons, List.foldl_nil]
    rw [uncontract_particle_eq _ _ n _ hx1,
      set_take_map_drop (fun particle => particle.map Contractable.uncontract) b n _ hx,
      any_take_succ (fun particle => particle.any Contractable.contracted) b n _ hx,
      Bool.or_assoc]

theorem uncontract_braket_eq {F : Type} (t : Bool) (b : BraKet F) :
    uncontract_braket (t, b) =
      (t || b.any (fun particle => particle.any Contractable.contracted),
        b.map (fun particle => particle.map Contractable.uncontract)) := by
  have h := uncontract_braket_upto t b b.length (Nat.le_refl _)
  simp only [List.take_length, List.drop_length, List.append_nil] at h
  simp only [uncontract_braket, BraKet.num_part]
  exact h

/-- The constructor, in closed form: the child list holds the uncontracted projection of
the target when something in the target is contracted, and nothing otherwise. -/
theorem ctor_eq {F D A : Type} (T : GenIntegralSet F D A) :
    Uncontract_Integral.ctor T =
      { target_ := T
        children_ := if T.some_contracted then [T.uncontracted_projection] else []
        nflops_ := 0 } := by
  simp only [Uncontract_Integral.ctor, uncontract_braket_eq, Bool.false_or,
    GenIntegralSet.some_contracted, GenIntegralSet.uncontracted_projection,
    GenIntegralSet.Instance]

theorem some_contracted_iff {F D A : Type} (T : GenIntegralSet F D A) :
    T.some_contracted = true ↔
      ((∃ particle ∈ T.bra_, ∃ m ∈ particle, m.contracted = true) ∨
        (∃ particle ∈ T.ket_, ∃ m ∈ particle, m.contracted = true) ∨
        T.oper_.descr_.contracted = true) := by
  simp only [GenIntegralSet.some_contracted, Bool.or_eq_true, List.any_eq_true, or_assoc]

theorem uncontracted_projection_not_contracted {F D A : Type} (T : GenIntegralSet F D A) :
    T.uncontracted_projection.some_contracted = false := by
  simp [GenIntegralSet.some_contracted, GenIntegralSet.uncontracted_projection,
    Contractable.contracted, Contractable.uncontract]

theorem some_contracted_eq_false_iff {F D A : Type} (T : GenIntegralSet F D A) :
    T.some_contracted = false ↔
      ((∀ particle ∈ T.bra_, ∀ m ∈ particle, m.contracted = false) ∧
        (∀ particle ∈ T.ket_, ∀ m ∈ particle, m.contracted = false) ∧
        T.oper_.descr_.contracted = false) := by
  simp only [GenIntegralSet.some_contracted, Bool.or_eq_false_iff, List.any_eq_false,
    Bool.not_eq_true, and_assoc]

theorem uncontracted_projection_flags {F D A : Type} (T : GenIntegralSet F D A) :
    (∀ particle ∈ T.uncontracted_projection.bra_, ∀ m ∈ particle, m.contracted = false) ∧
      (∀ particle ∈ T.uncontracted_projection.ket_, ∀ m ∈ particle, m.contracted = false) ∧
      T.uncontracted_projection.oper_.descr_.contracted = false :=
  (some_contracted_eq_false_iff _).1 (uncontracted_projection_not_contracted T)

/-! ## The constructor -/

/-- C1: for every target in which at least one bra member, one ket member or the operator
descriptor is contracted (the operator descriptor alone is enough), the constructed
relation has `num_children() == 1`; its single child, which is what `child(0)` returns,
has every bra member, every ket member and the operator descriptor uncontracted, the
auxiliary index of the target, and the class of the target (`ChildType` is
`TargetType`). -/
theorem ctor_contracted_target {F D A : Type} (T : GenIntegralSet F D A)
    (h : (∃ particle ∈ T.bra_, ∃ m ∈ particle, m.contracted = true) ∨
      (∃ particle ∈ T.ket_, ∃ m ∈ particle, m.contracted = true) ∨
      T.oper_.descr_.contracted = true) :
    (Uncontract_Integral.ctor T).num_children = 1 ∧
      ∃ c : ChildType (GenIntegralSet F D A),
        (Uncontract_Integral.ctor T).children_ = [c] ∧
        (Uncontract_Integral.ctor T).child 0 = Except.ok c ∧
        (∀ particle ∈ c.bra_, ∀ m ∈ particle, m.contracted = false) ∧
        (∀ particle ∈ c.ket_, ∀ m ∈ particle, m.contracted = false) ∧
        c.oper_.descr_.contracted = false ∧
        c.aux_ = T.aux_ ∧
        ChildType (GenIntegralSet F D A) = TargetType (GenIntegralSet F D A) := by
  have hc : T.some_contracted = true := (some_contracted_iff T).2 h
  have hflags := uncontracted_projection_flags T
  rw [ctor_eq, hc]
  refine ⟨by simp [Uncontract_Integral.num_children], T.uncontracted_projection, by simp,
    by simp [Uncontract_Integral.child], hflags.1, hflags.2.1, hflags.2.2, rfl, rfl⟩

/-- The operator descriptor alone is contracted in `sample_oper_contracted`, and the
relation built from it has one child. -/
theorem ctor_contracted_target_witness :
    (Uncontract_Integral.ctor sample_oper_contracted).num_children = 1 :=
  (ctor_contracted_target sample_oper_contracted (Or.inr (Or.inr rfl))).1

/-- C2: for every target in which no bra member, no ket member and not the operator
descriptor is contracted, the constructed relation has `num_children() == 0`. -/
theorem ctor_uncontracted_target {F D A : Type} (T : GenIntegralSet F D A)
    (hbra : ∀ particle ∈ T.bra_, ∀ m ∈ particle, m.contracted = false)
    (hket : ∀ particle ∈ T.ket_, ∀ m ∈ particle, m.contracted = false)
    (hoper : T.oper_.descr_.contracted = false) :
    (Uncontract_Integral.ctor T).num_children = 0 := by
  have hc : T.some_contracted = false :=
    (some_contracted_eq_false_iff T).2 ⟨hbra, hket, hoper⟩
  rw [ctor_eq, hc]
  simp [Uncontract_Integral.num_children]

/-- Nothing is contracted in `sample_uncontracted`, and the relation built from it has no
child. -/
theorem ctor_uncontracted_target_witness :
    (Uncontract_Integral.ctor sample_uncontracted).num_children = 0 :=
  ctor_uncontracted_target sample_uncontracted (by decide) (by decide) rfl

/-- C3: idempotence. For every target whose relation has one child, the relation
constructed from that child has `num_children() == 0`. -/
theorem ctor_child_has_no_child {F D A : Type} (T c : GenIntegralSet F D A)
    (h : (Uncontract_Integral.ctor T).num_children = 1)
    (hc : (Uncontract_Integral.ctor T).child 0 = Except.ok c) :
    (Uncontract_Integral.ctor c).num_children = 0 := by
  rw [ctor_eq] at h hc
  cases hT : T.some_contracted
  · rw [hT] at h
    simp [Uncontract_Integral.num_children] at h
  · rw [hT] at hc
    simp only [Uncontract_Integral.child, if_true, List.get?_cons_zero] at hc
    have hcc : c = T.uncontracted_projection := by
      injection hc with hc
      exact hc.symm
    rw [hcc, ctor_eq, uncontracted_projection_not_contracted]
    simp [Uncontract_Integral.num_children]

/-- The relation built from `sample_bra_contracted` has one child, and the relation built
from that child has none. -/
theorem ctor_child_has_no_child_witness :
    (Uncontract_Integral.ctor sample_bra_contracted).num_children = 1 ∧
      (Uncontract_Integral.ctor
        (GenIntegralSet.uncontracted_projection sample_bra_contracted)).num_children = 0 :=
  ⟨by decide, ctor_child_has_no_child sample_bra_contracted
    (GenIntegralSet.uncontracted_projection sample_bra_contracted) (by decide) rfl⟩

/-! ## The predicate -/

/-- C4: `DecontractedIntegralSet()(V)` is true if and only if `V` has at least one exit
arc, its first exit arc is a `DGArcRR`, and the relation that arc carries is an
`Uncontract_Integral`. It is false for a vertex without exit arcs, false when the first
arc is not a `DGArcRR` or carries the null relation, and false when the relation of the
first arc is of another class. -/
theorem DecontractedIntegralSet_iff (V : DGVertex) :
    (DecontractedIntegralSet V = true ↔
      0 < V.num_exit_arcs ∧
        ∃ I, V.first_exit_arc =
          some (DGArc.DGArcRR (some (RecurrenceRelation.Uncontract_Integral I)))) ∧
      (V.num_exit_arcs = 0 → DecontractedIntegralSet V = false) ∧
      (V.first_exit_arc = some DGArc.DGArcDirect → DecontractedIntegralSet V = false) ∧
      (V.first_exit_arc = some (DGArc.DGArcRR none) → DecontractedIntegralSet V = false) ∧
      (∀ kind, V.first_exit_arc = some (DGArc.DGArcRR (some (RecurrenceRelation.other kind))) →
        DecontractedIntegralSet V = false) := by
  rcases V with ⟨_ | ⟨arc0, rest⟩⟩
  · simp [DecontractedIntegralSet, DGVertex.num_exit_arcs, DGVertex.first_exit_arc]
  · rcases arc0 with (_ | (I | kind)) | _ <;>
      simp [DecontractedIntegralSet, DGVertex.num_exit_arcs, DGVertex.first_exit_arc,
        DGArc.cast_DGArcRR, cast_Uncontract_Integral_base]

/-- A vertex without exit arcs is not a decontracted integral set. -/
theorem DecontractedIntegralSet_iff_witness :
    DecontractedIntegralSet { exit_arcs := [] } = false :=
  (DecontractedIntegralSet_iff { exit_arcs := [] }).2.1 rfl

/-- C5, as the code has it: the predicate tests conformance to the common base class
`Uncontract_Integral_base`, so it is true for a vertex whose first exit arc carries an
`Uncontract_Integral` over any target class, and two such vertices over different target
classes get the same answer. -/
theorem DecontractedIntegralSet_any_instantiation (I J : Nat) (rest rest1 : List DGArc) :
    DecontractedIntegralSet
        { exit_arcs := DGArc.DGArcRR (some (RecurrenceRelation.Uncontract_Integral I)) :: rest }
        = true ∧
      DecontractedIntegralSet
        { exit_arcs := DGArc.DGArcRR (some (RecurrenceRelation.Uncontract_Integral I)) :: rest }
        = DecontractedIntegralSet
          { exit_arcs :=
              DGArc.DGArcRR (some (RecurrenceRelation.Uncontract_Integral J)) :: rest1 } := by
  simp [DecontractedIntegralSet, DGVertex.num_exit_arcs, DGVertex.first_exit_arc,
    DGArc.cast_DGArcRR, cast_Uncontract_Integral_base]

/-- C5, as stated, fails: the first exit arc of `sample_vertex` carries an
`Uncontract_Integral` over the target class 1; checked for the target class 0, type
identity answers false, and the predicate answers true. -/
theorem DecontractedIntegralSet_not_type_identity :
    DecontractedIntegralSet_by_type_identity 0 sample_vertex = false ∧
      DecontractedIntegralSet sample_vertex = true := by
  decide

/-! ## Emission -/

theorem vectorize_and_bvecdim_ok {I : Type} (ext : Externals I) (dims : ImplicitDimensions)
    (s : Nat) (hd : dims.well_formed = true) :
    ∃ total, vectorize_and_bvecdim ext dims s = Except.ok (!dims.fixed_width_one, total) := by
  rcases dims with ⟨_ | _, _ | _ | _⟩ <;>
    simp [ImplicitDimensions.well_formed] at hd <;>
    simp [vectorize_and_bvecdim, ImplicitDimensions.fixed_width_one,
      Entity.cast_RTimeEntity, Entity.cast_CTimeEntity]

/-- With one child and a well-formed dimensions descriptor `spfunction_call` returns: the
text is that of the branch taken, and the relation comes back with its counter
advanced. -/
theorem spfunction_call_ok {I : Type} (ext : Externals I) (self : Uncontract_Integral I)
    (context : CodeContext) (dims : ImplicitDimensions) (c : I)
    (hc : self.children_ = [c]) (hd : dims.well_formed = true) :
    ∃ total, self.spfunction_call ext context dims =
      Except.ok
        (if batched_branch ext context (!dims.fixed_width_one) then
            batched_text context (ext.symbol self.target_) (ext.symbol c) total
          else blockwise_text context (ext.symbol self.target_) (ext.symbol c),
          { self with
            nflops_ := (self.nflops_ + ext.size self.target_ % 2 ^ 32) % 2 ^ 32 }) := by
  obtain ⟨total, ht⟩ := vectorize_and_bvecdim_ok ext dims (ext.size self.target_ % 2 ^ 32) hd
  refine ⟨total, ?_⟩
  simp only [Uncontract_Integral.spfunction_call, ht, Uncontract_Integral.rr_child,
    Uncontract_Integral.child, hc, List.get?_cons_zero, Uncontract_Integral.rr_target,
    Uncontract_Integral.target]

/-- Whatever `spfunction_call` returns, the relation that comes back is the one it was
called on, with the counter advanced by the size of the target. -/
theorem spfunction_call_next {I : Type} (ext : Externals I) (self : Uncontract_Integral I)
    (context : CodeContext) (dims : ImplicitDimensions) (text : String)
    (next : Uncontract_Integral I)
    (h : self.spfunction_call ext context dims = Except.ok (text, next)) :
    next = { self with
      nflops_ := (self.nflops_ + ext.size self.target_ % 2 ^ 32) % 2 ^ 32 } := by
  simp only [Uncontract_Integral.spfunction_call] at h
  cases hv : vectorize_and_bvecdim ext dims (ext.size self.target_ % 2 ^ 32) with
  | error e =>
    rw [hv] at h
    exact absurd h (by simp)
  | ok r =>
    rw [hv] at h
    cases hch : self.rr_child 0 with
    | error e =>
      rw [hch] at h
      exact absurd h (by simp)
    | ok child0 =>
      rw [hch] at h
      injection h with h
      injection h with _ h2
      exact h2.symm

/-- The outcome of `spfunction_call`, text or failure, is a function of the target and
the child list of the relation: the counter plays no part in it. -/
theorem spfunction_call_text_congr {I : Type} (ext : Externals I)
    (self other : Uncontract_Integral I) (context : CodeContext) (dims : ImplicitDimensions)
    (ht : self.target_ = other.target_) (hc : self.children_ = other.children_) :
    Except.map Prod.fst (self.spfunction_call ext context dims) =
      Except.map Prod.fst (other.spfunction_call ext context dims) := by
  simp only [Uncontract_Integral.spfunction_call, Uncontract_Integral.rr_child,
    Uncontract_Integral.child, Uncontract_Integral.rr_target, Uncontract_Integral.target,
    ht, hc]
  cases vectorize_and_bvecdim ext dims (ext.size other.target_ % 2 ^ 32) with
  | error e => rfl
  | ok r =>
    cases other.children_.get? 0 with
    | none => rfl
    | some child0 => rfl

/-- Successive calls of `spfunction_call` on a relation with one child all return, each
with the text of the first call; the child list and the target stay, and the counter
advances by the size of the target at each call. -/
theorem emit_repeatedly_ok {I : Type} (ext : Externals I) (context : CodeContext)
    (dims : ImplicitDimensions) (c : I) (hd : dims.well_formed = true) :
    ∀ (n : Nat) (self : Uncontract_Integral I), self.children_ = [c] →
      self.nflops_ < 2 ^ 32 →
      ∃ texts last, emit_repeatedly ext context dims n self = Except.ok (texts, last) ∧
        texts.length = n ∧
        last.target_ = self.target_ ∧
        last.children_ = self.children_ ∧
        last.nflops_ = (self.nflops_ + n * ext.size self.target_) % 2 ^ 32 ∧
        ∀ text ∈ texts,
          Except.map Prod.fst (self.spfunction_call ext context dims) = Except.ok text
  | 0, self, _, hn =>
    ⟨[], self, rfl, rfl, rfl, rfl,
      by rw [Nat.zero_mul, Nat.add_zero, Nat.mod_eq_of_lt hn], by simp⟩
  | n + 1, self, hc, _ => by
    obtain ⟨total, hcall⟩ := spfunction_call_ok ext self context dims c hc hd
    obtain ⟨texts, last, hrun, hlen, htgt, hch, hfl, htx⟩ :=
      emit_repeatedly_ok ext context dims c hd n
        { self with nflops_ := (self.nflops_ + ext.size self.target_ % 2 ^ 32) % 2 ^ 32 }
        hc (Nat.mod_lt _ (by decide))
    have hsame := spfunction_call_text_congr ext
      { self with nflops_ := (self.nflops_ + ext.size self.target_ % 2 ^ 32) % 2 ^ 32 }
      self context dims rfl rfl
    generalize (if batched_branch ext context (!dims.fixed_width_one) = true then
      batched_text context (ext.symbol self.target_) (ext.symbol c) total
      else blockwise_text context (ext.symbol self.target_) (ext.symbol c)) = first at hcall
    refine ⟨first :: texts, last, ?_, by simp [hlen], htgt, hch, ?_, ?_⟩
    · simp only [emit_repeatedly, hcall, hrun]
    · rw [hfl]
      simp only [Nat.succ_mul]
      omega
    · intro text ht
      rcases List.mem_cons.1 ht with h | h
      · rw [h, hcall]
        rfl
      · rw [← hsame]
        exact htx text h

/-- C7: selection of the emission strategy, for every relation with one child. The
batched form, without the offset `+vi`, is emitted whenever the vector width is fixed at
generation time and equals 1, or `TrivialBFSet` is false, or the context vectorizes by
line; the blockwise form, with `+vi` after the target pointer, is emitted otherwise, and so
for every run-time vector width with `TrivialBFSet` true and vectorization by blocks. -/
theorem spfunction_call_strategy {I : Type} (ext : Externals I)
    (self : Uncontract_Integral I) (context : CodeContext) (dims : ImplicitDimensions)
    (c : I) (hc : self.children_ = [c]) (hd : dims.well_formed = true) :
    ∃ total next,
      self.spfunction_call ext context dims =
        Except.ok
          (if dims.fixed_width_one = true ∨ ext.TrivialBFSet_result = false ∨
              context.vectorize_by_line = true then
            "_libint2_static_api_inc1_short_(" ++
              context.value_to_pointer (ext.symbol self.rr_target) ++ "," ++
              context.value_to_pointer (ext.symbol c) ++ "," ++ total ++ ")" ++
              context.end_of_stat ++ "\n"
          else
            "_libint2_static_api_inc1_short_(" ++
              context.value_to_pointer (ext.symbol self.rr_target) ++ "+vi," ++
              context.value_to_pointer (ext.symbol c) ++ ",1)" ++
              context.end_of_stat ++ "\n", next) ∧
      (dims.vecdim_is_static = false → ext.TrivialBFSet_result = true →
        context.vectorize_by_line = false →
        self.spfunction_call ext context dims =
          Except.ok
            ("_libint2_static_api_inc1_short_(" ++
              context.value_to_pointer (ext.symbol self.rr_target) ++ "+vi," ++
              context.value_to_pointer (ext.symbol c) ++ ",1)" ++
              context.end_of_stat ++ "\n", next)) := by
  obtain ⟨total, hcall⟩ := spfunction_call_ok ext self context dims c hc hd
  refine ⟨total,
    { self with nflops_ := (self.nflops_ + ext.size self.target_ % 2 ^ 32) % 2 ^ 32 },
    ?_, ?_⟩
  · rw [hcall]
    cases h1 : dims.fixed_width_one <;> cases h2 : ext.TrivialBFSet_result <;>
      cases h3 : context.vectorize_by_line <;>
      simp [batched_branch, batched_text, blockwise_text, Uncontract_Integral.rr_target,
        Uncontract_Integral.target, h1, h2, h3]
  · intro hs ht hl
    have hw : dims.fixed_width_one = false := by
      simp [ImplicitDimensions.fixed_width_one, hs]
    rw [hcall]
    simp [batched_branch, blockwise_text, Uncontract_Integral.rr_target,
      Uncontract_Integral.target, hw, ht, hl]

/-- With a vector width fixed to 1 the batched call is emitted. -/
theorem spfunction_call_strategy_witness :
    ∃ total next,
      (Uncontract_Integral.ctor sample_bra_contracted).spfunction_call sample_externals
          sample_context sample_dims_one =
        Except.ok (batched_text sample_context "tgt" "src" total, next) :=
  (spfunction_call_strategy sample_externals (Uncontract_Integral.ctor sample_bra_contracted)
    sample_context sample_dims_one
    (GenIntegralSet.uncontracted_projection sample_bra_contracted)
    (by decide) rfl).imp
    (fun _ h => h.imp (fun _ h2 => h2.1.trans (by
      rw [if_pos (show sample_dims_one.fixed_width_one = true ∨
        sample_externals.TrivialBFSet_result = false ∨
        sample_context.vectorize_by_line = true from Or.inl rfl)]
      rfl)))

/-- C8: every call of `spfunction_call` that returns leaves the counter `nflops_` at its
old value plus `target.size()`, modulo `2 ^ 32`, for every context and every dimensions
descriptor; on a relation with one child the calls do return, and `n` successive calls
leave the counter at its first value plus `n * target.size()`, modulo `2 ^ 32`. -/
theorem spfunction_call_counter {I : Type} (ext : Externals I)
    (self : Uncontract_Integral I) (context : CodeContext) (dims : ImplicitDimensions) :
    (∀ text next, self.spfunction_call ext context dims = Except.ok (text, next) →
        next.nflops_ = (self.nflops_ + ext.size self.target) % 2 ^ 32) ∧
      (∀ c, self.children_ = [c] → dims.well_formed = true → self.nflops_ < 2 ^ 32 →
        ∀ n, ∃ texts last,
          emit_repeatedly ext context dims n self = Except.ok (texts, last) ∧
            texts.length = n ∧
            last.nflops_ = (self.nflops_ + n * ext.size self.target) % 2 ^ 32) := by
  refine ⟨?_, ?_⟩
  · intro text next h
    rw [spfunction_call_next ext self context dims text next h]
    exact Nat.add_mod_mod _ _ _
  · intro c hc hd hn n
    obtain ⟨texts, last, hrun, hlen, _, _, hfl, _⟩ :=
      emit_repeatedly_ok ext context dims c hd n self hc hn
    exact ⟨texts, last, hrun, hlen, hfl⟩

/-- Two successive calls on the relation built from `sample_bra_contracted`, whose target
has size 6, leave the counter at 12. -/
theorem spfunction_call_counter_witness :
    ∃ texts last,
      emit_repeatedly sample_externals sample_context sample_dims_runtime 2
          (Uncontract_Integral.ctor sample_bra_contracted) = Except.ok (texts, last) ∧
        texts.length = 2 ∧
        last.nflops_ = (0 + 2 * 6) % 2 ^ 32 :=
  (spfunction_call_counter sample_externals (Uncontract_Integral.ctor sample_bra_contracted)
    sample_context sample_dims_runtime).2
    (GenIntegralSet.uncontracted_projection sample_bra_contracted)
    (by decide) rfl (by decide) 2

/-- C9: the text of `spfunction_call` does not depend on the counter. Two relations with
the same target and the same children, under the same context and the same dimensions
descriptor, give the same text, or fail alike, whatever their counters are; and when a
call returns a text, the next call on the relation it leaves returns that very text. -/
theorem spfunction_call_deterministic {I : Type} (ext : Externals I)
    (self other : Uncontract_Integral I) (context : CodeContext) (dims : ImplicitDimensions)
    (ht : self.target_ = other.target_) (hc : self.children_ = other.children_) :
    Except.map Prod.fst (self.spfunction_call ext context dims) =
        Except.map Prod.fst (other.spfunction_call ext context dims) ∧
      (∀ text next, self.spfunction_call ext context dims = Except.ok (text, next) →
        ∃ next2, next.spfunction_call ext context dims = Except.ok (text, next2)) := by
  refine ⟨spfunction_call_text_congr ext self other context dims ht hc, ?_⟩
  intro text next h
  have hnext := spfunction_call_next ext self context dims text next h
  have hsame := spfunction_call_text_congr ext next self context dims
    (by rw [hnext]) (by rw [hnext])
  rw [h] at hsame
  cases hres : next.spfunction_call ext context dims with
  | error e =>
    rw [hres] at hsame
    exact absurd hsame (by simp [Except.map])
  | ok r =>
    obtain ⟨text2, next2⟩ := r
    rw [hres] at hsame
    simp only [Except.map, Except.ok.injEq] at hsame
    exact ⟨next2, by rw [hsame]⟩

/-- The relation built from `sample_bra_contracted` and the same relation with its
counter at 6 return the same text. -/
theorem spfunction_call_deterministic_witness :
    Except.map Prod.fst
        ((Uncontract_Integral.ctor sample_bra_contracted).spfunction_call sample_externals
          sample_context sample_dims_runtime) =
      Except.map Prod.fst
        (Uncontract_Integral.spfunction_call sample_externals
          { Uncontract_Integral.ctor sample_bra_contracted with nflops_ := 6 }
          sample_context sample_dims_runtime) :=
  (spfunction_call_deterministic sample_externals
    (Uncontract_Integral.ctor sample_bra_contracted)
    { Uncontract_Integral.ctor sample_bra_contracted with nflops_ := 6 }
    sample_context sample_dims_runtime rfl rfl).1

/-- C10: `child(i)` and `rr_child(i)` return the `i`-th element of the child list when
`i < num_children()`, and fail with the out-of-range error if and only if
`i >= num_children()`; on a relation that holds the children of a relation built from a
target `T`, `child(0)` fails when nothing in `T` is contracted, and `child(1)` fails
always. -/
theorem child_out_of_range {F D A : Type}
    (self : Uncontract_Integral (GenIntegralSet F D A)) (i : Nat)
    (T : GenIntegralSet F D A) :
    (self.children_.length < 2 ^ 32 →
        (i < self.num_children →
          ∃ c, self.children_.get? i = some c ∧ self.child i = Except.ok c ∧
            self.rr_child i = Except.ok c) ∧
        (self.child i = Except.error Failure.out_of_range ↔ self.num_children ≤ i) ∧
        (self.rr_child i = Except.error Failure.out_of_range ↔ self.num_children ≤ i)) ∧
      (self.children_ = (Uncontract_Integral.ctor T).children_ →
        ((∀ particle ∈ T.bra_, ∀ m ∈ particle, m.contracted = false) →
          (∀ particle ∈ T.ket_, ∀ m ∈ particle, m.contracted = false) →
          T.oper_.descr_.contracted = false →
          self.child 0 = Except.error Failure.out_of_range ∧
            self.rr_child 0 = Except.error Failure.out_of_range) ∧
        self.child 1 = Except.error Failure.out_of_range ∧
        self.rr_child 1 = Except.error Failure.out_of_range) := by
  refine ⟨?_, ?_⟩
  · intro hlen
    have hnum : self.num_children = self.children_.length := Nat.mod_eq_of_lt hlen
    rw [hnum]
    refine ⟨?_, ?_, ?_⟩
    · intro hi
      refine ⟨self.children_.get ⟨i, hi⟩, List.get?_eq_get hi, ?_, ?_⟩ <;>
        simp only [Uncontract_Integral.rr_child, Uncontract_Integral.child,
          List.get?_eq_get hi]
    · cases hg : self.children_.get? i with
      | none =>
        have hi := List.get?_eq_none.1 hg
        simp only [Uncontract_Integral.child, hg]
        simp [hi]
      | some c =>
        have hi := (List.get?_eq_some.1 hg).1
        simp only [Uncontract_Integral.child, hg]
        simp [hi]
    · cases hg : self.children_.get? i with
      | none =>
        have hi := List.get?_eq_none.1 hg
        simp only [Uncontract_Integral.rr_child, Uncontract_Integral.child, hg]
        simp [hi]
      | some c =>
        have hi := (List.get?_eq_some.1 hg).1
        simp only [Uncontract_Integral.rr_child, Uncontract_Integral.child, hg]
        simp [hi]
  · intro hsame
    rw [ctor_eq] at hsame
    refine ⟨?_, ?_, ?_⟩
    · intro hbra hket hoper
      have hT : T.some_contracted = false :=
        (some_contracted_eq_false_iff T).2 ⟨hbra, hket, hoper⟩
      rw [hT] at hsame
      simp [Uncontract_Integral.rr_child, Uncontract_Integral.child, hsame]
    · cases hT : T.some_contracted <;> rw [hT] at hsame <;>
        simp [Uncontract_Integral.child, hsame]
    · cases hT : T.some_contracted <;> rw [hT] at hsame <;>
        simp [Uncontract_Integral.rr_child, Uncontract_Integral.child, hsame]

/-- On the relation built from `sample_uncontracted`, `child(0)` and `child(1)` fail with
the out-of-range error; on the relation built from `sample_bra_contracted`, `child(0)` and
`rr_child(0)` return the first element of the child list. -/
theorem child_out_of_range_witness :
    (Uncontract_Integral.ctor sample_uncontracted).child 0 =
        Except.error Failure.out_of_range ∧
      (Uncontract_Integral.ctor sample_uncontracted).child 1 =
        Except.error Failure.out_of_range ∧
      ∃ c, (Uncontract_Integral.ctor sample_bra_contracted).children_.get? 0 = some c ∧
        (Uncontract_Integral.ctor sample_bra_contracted).child 0 = Except.ok c ∧
        (Uncontract_Integral.ctor sample_bra_contracted).rr_child 0 = Except.ok c :=
  ⟨(((child_out_of_range (Uncontract_Integral.ctor sample_uncontracted) 0
      sample_uncontracted).2 rfl).1 (by decide) (by decide) rfl).1,
    ((child_out_of_range (Uncontract_Integral.ctor sample_uncontracted) 0
      sample_uncontracted).2 rfl).2.1,
    ((child_out_of_range (Uncontract_Integral.ctor sample_bra_contracted) 0
      sample_bra_contracted).1 (by decide)).1 (by decide)⟩

/-! ## The traits -/

/-- C11: storage round trip. For every class `T` and every value `v` of it, the storage
representation of `v` under the policy of `T` is `v` itself when `T` is stored by value
and a shared handle that points to `v` when `T` is stored by handle, and `const_ref`, of
`StorageTraits<T>` and of `TypeTraits<T>` alike, gives `v` back from it. -/
theorem const_ref_storage_of (USE_BRAKET_H : Bool) (T : ElementType) {V : Type} (v : V) :
    (StorageTraits.instantiate USE_BRAKET_H T V).const_ref (storage_of USE_BRAKET_H T v) =
        Except.ok v ∧
      (TypeTraits.instantiate USE_BRAKET_H T V).const_ref (storage_of USE_BRAKET_H T v) =
        Except.ok v ∧
      ((StorageTraits.instantiate USE_BRAKET_H T V).StoredAsPtr = false →
        HEq (storage_of USE_BRAKET_H T v) v) ∧
      ((StorageTraits.instantiate USE_BRAKET_H T V).StoredAsPtr = true →
        HEq (storage_of USE_BRAKET_H T v) (some v)) := by
  cases USE_BRAKET_H <;> cases T <;>
    refine ⟨rfl, rfl, ?_, ?_⟩ <;> intro h <;>
    first
      | exact HEq.rfl
      | exact Bool.noConfusion h

/-- A `CGShell`, stored by value, and a value of an operator descriptor class, stored by
handle, both come back from `const_ref`. -/
theorem const_ref_storage_of_witness :
    HEq (storage_of true ElementType.CGShell (5 : Nat)) (5 : Nat) ∧
      HEq (storage_of true sample_oper_descr (5 : Nat)) (some (5 : Nat)) ∧
      (StorageTraits.instantiate true ElementType.CGShell Nat).const_ref
          (storage_of true ElementType.CGShell 5) = Except.ok 5 :=
  ⟨(const_ref_storage_of true ElementType.CGShell (5 : Nat)).2.2.1 rfl,
    (const_ref_storage_of true sample_oper_descr (5 : Nat)).2.2.2 rfl,
    (const_ref_storage_of true ElementType.CGShell (5 : Nat)).1⟩

/-- C12, as the code has it: `StoredAsPtr`, as `StorageTraits<T>` and `TypeTraits<T>`
report it alike, is false exactly for `CGShell`, `CGF`, `CGShell1d<Axis>` and
`CGF1d<Axis>` when `USE_BRAKET_H` is set, and true for every other class, the operator
descriptor classes among them. -/
theorem StoredAsPtr_iff (USE_BRAKET_H : Bool) (T : ElementType) (V : Type) :
    (TypeTraits.instantiate USE_BRAKET_H T V).StoredAsPtr =
        (StorageTraits.instantiate USE_BRAKET_H T V).StoredAsPtr ∧
      ((StorageTraits.instantiate USE_BRAKET_H T V).StoredAsPtr = false ↔
        USE_BRAKET_H = true ∧
          (T = ElementType.CGShell ∨ T = ElementType.CGF ∨
            (∃ Axis, T = ElementType.CGShell1d Axis) ∨
            (∃ Axis, T = ElementType.CGF1d Axis))) ∧
      (∀ name, (StorageTraits.instantiate USE_BRAKET_H (ElementType.OperDescr name) V).StoredAsPtr
        = true) := by
  refine ⟨rfl, ?_, ?_⟩
  · cases USE_BRAKET_H <;> cases T <;>
      simp [StorageTraits.instantiate, StorageTraits.primary, StorageTraits.specialization]
  · intro name
    cases USE_BRAKET_H <;> rfl

/-- C12, as stated, fails: an operator descriptor class is in the set that the
specification has stored by value, and `StorageTraits` and `TypeTraits` report it as
stored by handle. -/
theorem StoredAsPtr_oper_descr :
    lightweight_per_spec sample_oper_descr = true ∧
      (StorageTraits.instantiate true sample_oper_descr Nat).StoredAsPtr = true ∧
      (TypeTraits.instantiate true sample_oper_descr Nat).StoredAsPtr = true := by
  decide

/-! ## The remaining methods -/

/-- C13: `is_simple()` is false for every `Uncontract_Integral`: for every state of the
object, for the relation built from any target, with no child or with one, and after a
call of `spfunction_call`. -/
theorem is_simple_false {F D A : Type} (self : Uncontract_Integral (GenIntegralSet F D A))
    (T : GenIntegralSet F D A) (ext : Externals (GenIntegralSet F D A))
    (context : CodeContext) (dims : ImplicitDimensions) :
    self.is_simple = false ∧
      (Uncontract_Integral.ctor T).is_simple = false ∧
      (self.after_spfunction_call ext context dims).is_simple = false :=
  ⟨rfl, rfl, rfl⟩

/-- C15: the predicate looks at the first exit arc only. Two vertices with the same first
exit arc get the same answer, whatever their other exit arcs are; a vertex whose first arc
carries a relation of another class and whose second arc carries an `Uncontract_Integral`
gets false, and with the two arcs swapped it gets true. -/
theorem DecontractedIntegralSet_first_arc (V W : DGVertex) (I kind : Nat)
    (h : V.first_exit_arc = W.first_exit_arc) :
    DecontractedIntegralSet V = DecontractedIntegralSet W ∧
      DecontractedIntegralSet
        { exit_arcs :=
            [DGArc.DGArcRR (some (RecurrenceRelation.other kind)),
              DGArc.DGArcRR (some (RecurrenceRelation.Uncontract_Integral I))] } = false ∧
      DecontractedIntegralSet
        { exit_arcs :=
            [DGArc.DGArcRR (some (RecurrenceRelation.Uncontract_Integral I)),
              DGArc.DGArcRR (some (RecurrenceRelation.other kind))] } = true := by
  refine ⟨?_, ?_, ?_⟩
  · rcases V with ⟨_ | ⟨a, restV⟩⟩ <;> rcases W with ⟨_ | ⟨b, restW⟩⟩ <;>
      simp [DGVertex.first_exit_arc] at h
    · rfl
    · subst h
      simp [DecontractedIntegralSet, DGVertex.num_exit_arcs, DGVertex.first_exit_arc]
  · simp [DecontractedIntegralSet, DGVertex.num_exit_arcs, DGVertex.first_exit_arc,
      DGArc.cast_DGArcRR, cast_Uncontract_Integral_base]
  · simp [DecontractedIntegralSet, DGVertex.num_exit_arcs, DGVertex.first_exit_arc,
      DGArc.cast_DGArcRR, cast_Uncontract_Integral_base]

/-- The vertex `sample_vertex` and the vertex `sample_vertex_uncontract_first` have the
same first exit arc, and get the same answer. -/
theorem DecontractedIntegralSet_first_arc_witness :
    DecontractedIntegralSet sample_vertex =
      DecontractedIntegralSet sample_vertex_uncontract_first :=
  (DecontractedIntegralSet_first_arc sample_vertex sample_vertex_uncontract_first 1 7 rfl).1

/-! ## The batched call -/

theorem int_of_unsigned_of_lt (n : Nat) (h : n < 2 ^ 31) :
    int_of_unsigned (n % 2 ^ 32) = Int.ofNat n := by
  have h1 : n % 2 ^ 32 = n := Nat.mod_eq_of_lt (by omega)
  simp only [int_of_unsigned, h1, h, if_true]

/-- C14: in the batched form, the text is the single call
`_libint2_static_api_inc1_short_(` pointer to the target symbol `,` pointer to the symbol
of child 0 `,` total `)`, then the statement terminator of the context and a newline. For
a vector width fixed to `w`, total is the identifier of the compile-time product of `w`
and `target.size()`; for a run-time width, it is the identifier of the product of the
run-time width entity and `target.size()`. The size is passed as an `int`, which is
`target.size()` below `2 ^ 31`. -/
theorem spfunction_call_batched {I : Type} (ext : Externals I)
    (self : Uncontract_Integral I) (context : CodeContext) (c : I)
    (hc : self.children_ = [c]) (hs : ext.size self.target < 2 ^ 31) :
    (∀ w : Int,
        w = 1 ∨ ext.TrivialBFSet_result = false ∨ context.vectorize_by_line = true →
        ∃ next,
          self.spfunction_call ext context
              { vecdim_is_static := true, vecdim := Entity.CTimeEntity w } =
            Except.ok
              ("_libint2_static_api_inc1_short_(" ++
                context.value_to_pointer (ext.symbol self.rr_target) ++ "," ++
                context.value_to_pointer (ext.symbol c) ++ "," ++
                ext.ctime_product_id w (Int.ofNat (ext.size self.target)) ++ ")" ++
                context.end_of_stat ++ "\n", next)) ∧
      (∀ width : String,
        ext.TrivialBFSet_result = false ∨ context.vectorize_by_line = true →
        ∃ next,
          self.spfunction_call ext context
              { vecdim_is_static := false, vecdim := Entity.RTimeEntity width } =
            Except.ok
              ("_libint2_static_api_inc1_short_(" ++
                context.value_to_pointer (ext.symbol self.rr_target) ++ "," ++
                context.value_to_pointer (ext.symbol c) ++ "," ++
                ext.rtime_product_id width (Int.ofNat (ext.size self.target)) ++ ")" ++
                context.end_of_stat ++ "\n", next)) := by
  have hsize : int_of_unsigned (ext.size self.target_ % 2 ^ 32) =
      Int.ofNat (ext.size self.target_) := int_of_unsigned_of_lt _ hs
  refine ⟨?_, ?_⟩
  · intro w hb
    have hbranch : batched_branch ext context (if w = 1 then false else true) = true := by
      rcases hb with h | h | h <;> simp [batched_branch, h]
    refine ⟨{ self with
      nflops_ := (self.nflops_ + ext.size self.target_ % 2 ^ 32) % 2 ^ 32 }, ?_⟩
    simp only [Uncontract_Integral.spfunction_call, vectorize_and_bvecdim,
      Entity.cast_CTimeEntity, Uncontract_Integral.rr_child, Uncontract_Integral.child, hc,
      List.get?_cons_zero, Uncontract_Integral.rr_target, Uncontract_Integral.target,
      Bool.not_true, Bool.false_eq_true, if_false, hbranch, if_true, batched_text, hsize]
  · intro width hb
    have hbranch : batched_branch ext context true = true := by
      rcases hb with h | h <;> simp [batched_branch, h]
    refine ⟨{ self with
      nflops_ := (self.nflops_ + ext.size self.target_ % 2 ^ 32) % 2 ^ 32 }, ?_⟩
    simp only [Uncontract_Integral.spfunction_call, vectorize_and_bvecdim,
      Entity.cast_RTimeEntity, Uncontract_Integral.rr_child, Uncontract_Integral.child, hc,
      List.get?_cons_zero, Uncontract_Integral.rr_target, Uncontract_Integral.target,
      Bool.not_false, if_true, hbranch, batched_text, hsize]

/-- With a vector width fixed to 1, on a target of size 6, the batched call has the
identifier of the product of 1 and 6 as its total. -/
theorem spfunction_call_batched_witness :
    ∃ next,
      (Uncontract_Integral.ctor sample_bra_contracted).spfunction_call sample_externals
          sample_context sample_dims_one =
        Except.ok ("_libint2_static_api_inc1_short_(tgt,src,6);\n", next) :=
  ((spfunction_call_batched sample_externals (Uncontract_Integral.ctor sample_bra_contracted)
    sample_context (GenIntegralSet.uncontracted_projection sample_bra_contracted)
    (by decide) (by decide)).1 1 (Or.inl rfl)).imp (fun _ h => h.trans rfl)

/-! ## The child and the target -/

theorem child_zero_eq {F D A : Type} (T c : GenIntegralSet F D A)
    (hc : (Uncontract_Integral.ctor T).child 0 = Except.ok c) :
    T.some_contracted = true ∧ c = T.uncontracted_projection := by
  rw [ctor_eq] at hc
  cases hT : T.some_contracted
  · rw [hT] at hc
    simp [Uncontract_Integral.child] at hc
  · rw [hT] at hc
    simp only [Uncontract_Integral.child, if_true, List.get?_cons_zero] at hc
    injection hc with hc
    exact ⟨rfl, hc.symm⟩

theorem mem_children_eq {F D A : Type} (T c : GenIntegralSet F D A)
    (hc : c ∈ (Uncontract_Integral.ctor T).children_) :
    T.some_contracted = true ∧ c = T.uncontracted_projection := by
  rw [ctor_eq] at hc
  cases hT : T.some_contracted
  · rw [hT] at hc
    simp at hc
  · rw [hT] at hc
    simp only [if_true, List.mem_singleton] at hc
    exact ⟨rfl, hc⟩

theorem num_members_map {F : Type} (g : Contractable F → Contractable F) (b : BraKet F)
    (p : Nat) :
    BraKet.num_members (b.map (fun particle => particle.map g)) p = BraKet.num_members b p := by
  simp only [BraKet.num_members, List.getD_eq_getElem?_getD, List.getElem?_map]
  cases b[p]? <;> simp

theorem member_map {F : Type} (g : Contractable F → Contractable F) (b : BraKet F)
    (p f : Nat) :
    BraKet.member (b.map (fun particle => particle.map g)) p f = (BraKet.member b p f).map g := by
  simp only [BraKet.member, List.get?_eq_getElem?, List.getElem?_map]
  cases b[p]? <;> simp

theorem exists_member_of_mem {F : Type} (b : BraKet F) (particle : List (Contractable F))
    (m : Contractable F) (hp : particle ∈ b) (hm : m ∈ particle) :
    ∃ p f, BraKet.member b p f = some m := by
  obtain ⟨p, hp1⟩ := List.mem_iff_get?.1 hp
  obtain ⟨f, hf1⟩ := List.mem_iff_get?.1 hm
  exact ⟨p, f, by simp only [BraKet.member, hp1, Option.some_bind, hf1]⟩

theorem uncontracted_projection_idem {F D A : Type} (T : GenIntegralSet F D A) :
    T.uncontracted_projection.uncontracted_projection = T.uncontracted_projection := by
  simp [GenIntegralSet.uncontracted_projection, Contractable.uncontract]

/-- C16: for every target whose relation has one child, the uncontracted projection of
the child is the uncontracted projection of the target; the child has as many bra and ket
particles as the target, as many members in each particle, and each member, and the
operator descriptor, is that of the target but for the contraction flag. -/
theorem child_uncontracted_projection {F D A : Type} (T c : GenIntegralSet F D A)
    (_h : (Uncontract_Integral.ctor T).num_children = 1)
    (hc : (Uncontract_Integral.ctor T).child 0 = Except.ok c) :
    c.uncontracted_projection = T.uncontracted_projection ∧
      c.bra_.num_part = T.bra_.num_part ∧
      c.ket_.num_part = T.ket_.num_part ∧
      (∀ p, c.bra_.num_members p = T.bra_.num_members p) ∧
      (∀ p, c.ket_.num_members p = T.ket_.num_members p) ∧
      (∀ p f, (c.bra_.member p f).map Contractable.rest =
        (T.bra_.member p f).map Contractable.rest) ∧
      (∀ p f, (c.ket_.member p f).map Contractable.rest =
        (T.ket_.member p f).map Contractable.rest) ∧
      c.oper_.descr_.rest = T.oper_.descr_.rest ∧
      c.aux_ = T.aux_ := by
  obtain ⟨_, hcT⟩ := child_zero_eq T c hc
  subst hcT
  refine ⟨uncontracted_projection_idem T, ?_, ?_, ?_, ?_, ?_, ?_, rfl, rfl⟩
  · simp [GenIntegralSet.uncontracted_projection, BraKet.num_part]
  · simp [GenIntegralSet.uncontracted_projection, BraKet.num_part]
  · intro p
    exact num_members_map _ _ p
  · intro p
    exact num_members_map _ _ p
  · intro p f
    simp only [GenIntegralSet.uncontracted_projection, member_map, Option.map_map]
    rfl
  · intro p f
    simp only [GenIntegralSet.uncontracted_projection, member_map, Option.map_map]
    rfl

/-- The relation built from `sample_bra_contracted` has one child, whose uncontracted
projection is that of `sample_bra_contracted`. -/
theorem child_uncontracted_projection_witness :
    (GenIntegralSet.uncontracted_projection sample_bra_contracted).uncontracted_projection =
      GenIntegralSet.uncontracted_projection sample_bra_contracted :=
  (child_uncontracted_projection sample_bra_contracted
    (GenIntegralSet.uncontracted_projection sample_bra_contracted) (by decide) rfl).1

theorem spfunction_call_of_run {I : Type} (ext : Externals I)
    (self : Uncontract_Integral I) (context : CodeContext) (dims : ImplicitDimensions) :
    self.spfunction_call ext context dims =
      match self.spfunction_call_run ext context dims with
      | (Except.ok text, next) => Except.ok (text, next)
      | (Except.error e, _) => Except.error e := by
  simp only [Uncontract_Integral.spfunction_call, Uncontract_Integral.spfunction_call_run,
    Uncontract_Integral.spfunction_call_dims, Uncontract_Integral.spfunction_call_text,
    Uncontract_Integral.spfunction_call_count]
  cases vectorize_and_bvecdim ext dims (ext.size self.target_ % 2 ^ 32) with
  | error e => rfl
  | ok r =>
    simp only [Outcome.and_then]
    cases self.rr_child 0 with
    | error e => rfl
    | ok child0 => rfl

/-- On a relation with one child the run goes through its three pieces, and the object it
leaves has the counter advanced. -/
theorem spfunction_call_run_one_child {I : Type} (ext : Externals I)
    (self : Uncontract_Integral I) (context : CodeContext) (dims : ImplicitDimensions)
    (c : I) (hc : self.children_ = [c]) (hd : dims.well_formed = true) :
    ∃ total, self.spfunction_call_run ext context dims =
      (Except.ok
        (if batched_branch ext context (!dims.fixed_width_one) then
          batched_text context (ext.symbol self.target_) (ext.symbol c) total
        else blockwise_text context (ext.symbol self.target_) (ext.symbol c)),
        { self with
          nflops_ := (self.nflops_ + ext.size self.target_ % 2 ^ 32) % 2 ^ 32 }) := by
  obtain ⟨total, ht⟩ :=
    vectorize_and_bvecdim_ok ext dims (ext.size self.target_ % 2 ^ 32) hd
  refine ⟨total, ?_⟩
  simp only [Uncontract_Integral.spfunction_call_run,
    Uncontract_Integral.spfunction_call_dims, Uncontract_Integral.spfunction_call_text,
    Uncontract_Integral.spfunction_call_count, ht, Outcome.and_then,
    Uncontract_Integral.rr_child, Uncontract_Integral.child, hc, List.get?_cons_zero,
    Uncontract_Integral.rr_target, Uncontract_Integral.target]

/-- C18: on a relation with no child, the one built from a target in which nothing is
contracted, `spfunction_call` fails with the out-of-range error of `child(0)`, for every
context and every dimensions descriptor, whichever branch they select; the failure comes
before the counter is written, so the object that the method leaves as it throws is the
object it was called on, with its counter as it was. -/
theorem spfunction_call_no_child {F D A : Type} (T : GenIntegralSet F D A)
    (self : Uncontract_Integral (GenIntegralSet F D A))
    (ext : Externals (GenIntegralSet F D A)) (context : CodeContext)
    (dims : ImplicitDimensions)
    (hbra : ∀ particle ∈ T.bra_, ∀ m ∈ particle, m.contracted = false)
    (hket : ∀ particle ∈ T.ket_, ∀ m ∈ particle, m.contracted = false)
    (hoper : T.oper_.descr_.contracted = false)
    (hself : self.children_ = (Uncontract_Integral.ctor T).children_)
    (hd : dims.well_formed = true) :
    self.child 0 = Except.error Failure.out_of_range ∧
      self.spfunction_call ext context dims = Except.error Failure.out_of_range ∧
      self.spfunction_call_run ext context dims =
        (Except.error Failure.out_of_range, self) ∧
      (self.after_spfunction_call ext context dims).nflops_ = self.nflops_ := by
  have hT : T.some_contracted = false :=
    (some_contracted_eq_false_iff T).2 ⟨hbra, hket, hoper⟩
  rw [ctor_eq, hT] at hself
  have hchild : self.rr_child 0 = Except.error Failure.out_of_range := by
    simp [Uncontract_Integral.rr_child, Uncontract_Integral.child, hself]
  obtain ⟨total, ht⟩ :=
    vectorize_and_bvecdim_ok ext dims (ext.size self.target_ % 2 ^ 32) hd
  have hrun : self.spfunction_call_run ext context dims =
      (Except.error Failure.out_of_range, self) := by
    simp only [Uncontract_Integral.spfunction_call_run,
      Uncontract_Integral.spfunction_call_dims, Uncontract_Integral.spfunction_call_text,
      ht, Outcome.and_then, hchild]
  refine ⟨hchild, ?_, hrun, ?_⟩
  · simp only [Uncontract_Integral.spfunction_call, hchild, ht]
  · simp only [Uncontract_Integral.after_spfunction_call, hrun]

/-- On the relation built from `sample_uncontracted`, `spfunction_call` fails with the
out-of-range error and leaves the relation as it was, with a run-time vector length and
trivial basis function sets, and with the vector length 1. -/
theorem spfunction_call_no_child_witness :
    (Uncontract_Integral.ctor sample_uncontracted).spfunction_call_run
          sample_externals_single sample_context sample_dims_runtime =
        (Except.error Failure.out_of_range, Uncontract_Integral.ctor sample_uncontracted) ∧
      (Uncontract_Integral.ctor sample_uncontracted).spfunction_call_run sample_externals
          sample_context sample_dims_one =
        (Except.error Failure.out_of_range, Uncontract_Integral.ctor sample_uncontracted) :=
  ⟨(spfunction_call_no_child sample_uncontracted (Uncontract_Integral.ctor sample_uncontracted)
      sample_externals_single sample_context sample_dims_runtime (by decide) (by decide) rfl
      rfl rfl).2.2.1,
    (spfunction_call_no_child sample_uncontracted (Uncontract_Integral.ctor sample_uncontracted)
      sample_externals sample_context sample_dims_one (by decide) (by decide) rfl
      rfl rfl).2.2.1⟩

/-- C19: a relation never has its target as its child. For every target, a child of the
relation is another vertex than the target: a bra member, a ket member or the operator
descriptor is contracted in the target and, at the same place, uncontracted in the child;
so `rr_child(0)` is never `rr_target()`. -/
theorem child_ne_target {F D A : Type} (T c : GenIntegralSet F D A)
    (hc : c ∈ (Uncontract_Integral.ctor T).children_) :
    c ≠ T ∧
      ((∃ p f m n, T.bra_.member p f = some m ∧ c.bra_.member p f = some n ∧
          m.contracted = true ∧ n.contracted = false) ∨
        (∃ p f m n, T.ket_.member p f = some m ∧ c.ket_.member p f = some n ∧
          m.contracted = true ∧ n.contracted = false) ∨
        (T.oper_.descr_.contracted = true ∧ c.oper_.descr_.contracted = false)) ∧
      (Uncontract_Integral.ctor T).rr_child 0 ≠
        Except.ok (Uncontract_Integral.ctor T).rr_target := by
  obtain ⟨hT, hcT⟩ := mem_children_eq T c hc
  have hne : c ≠ T := by
    intro heq
    have h1 := uncontracted_projection_not_contracted T
    rw [← hcT, heq, hT] at h1
    exact Bool.noConfusion h1
  refine ⟨hne, ?_, ?_⟩
  · subst hcT
    rcases (some_contracted_iff T).1 hT with ⟨particle, hp, m, hm, hflag⟩ |
      ⟨particle, hp, m, hm, hflag⟩ | hflag
    · obtain ⟨p, f, hpf⟩ := exists_member_of_mem T.bra_ particle m hp hm
      refine Or.inl ⟨p, f, m, m.uncontract, hpf, ?_, hflag, rfl⟩
      simp only [GenIntegralSet.uncontracted_projection, member_map, hpf, Option.map_some']
    · obtain ⟨p, f, hpf⟩ := exists_member_of_mem T.ket_ particle m hp hm
      refine Or.inr (Or.inl ⟨p, f, m, m.uncontract, hpf, ?_, hflag, rfl⟩)
      simp only [GenIntegralSet.uncontracted_projection, member_map, hpf, Option.map_some']
    · exact Or.inr (Or.inr ⟨hflag, rfl⟩)
  · intro heq
    have hmem : (Uncontract_Integral.ctor T).rr_target ∈
        (Uncontract_Integral.ctor T).children_ := by
      simp only [Uncontract_Integral.rr_child, Uncontract_Integral.child] at heq
      cases hg : (Uncontract_Integral.ctor T).children_.get? 0 with
      | none =>
        rw [hg] at heq
        exact absurd heq (by simp)
      | some x =>
        rw [hg] at heq
        injection heq with heq
        rw [← heq]
        exact List.get?_mem hg
    have h2 := (mem_children_eq T _ hmem).2
    have h1 := uncontracted_projection_not_contracted T
    rw [← h2] at h1
    have h3 : (Uncontract_Integral.ctor T).rr_target = T := rfl
    rw [h3, hT] at h1
    exact Bool.noConfusion h1

/-- The child of the relation built from `sample_oper_contracted` is not
`sample_oper_contracted`. -/
theorem child_ne_target_witness :
    GenIntegralSet.uncontracted_projection sample_oper_contracted ≠ sample_oper_contracted :=
  (child_ne_target sample_oper_contracted
    (GenIntegralSet.uncontracted_projection sample_oper_contracted) (by decide)).1

end libint2
